import Mathlib

/-
Verification of the blackbird2X HTTP facade (src/api.py) against its
natural-language specification.  The Python source is shallowly embedded:
each handler and background runner becomes a pure Lean function; the
outcome of `subprocess.run` is passed in as an explicit `ProcOutcome`
value; the result-file store is an explicit map from file names to parsed
JSON records; thread creation is recorded as a boolean effect.
-/

namespace Api

/-- A JSON value, as produced by `jsonify` / `json.dump` in the handlers. -/
inductive JVal where
  | str : String → JVal
  | num : Int → JVal
  | arr : List JVal → JVal
  | obj : List (String × JVal) → JVal

/-- Outcome of one `subprocess.run` call: normal completion with return
code, captured stdout and stderr; expiry of the `timeout` argument
(`subprocess.TimeoutExpired`); or any other raised exception with its
string rendering. -/
inductive ProcOutcome where
  | completed : Int → String → String → ProcOutcome
  | timedOut : ProcOutcome
  | exn : String → ProcOutcome

/-- An HTTP response: status code plus JSON body. -/
structure HttpResponse where
  statusCode : Nat
  body : JVal

/-- Python substring test `".." in s`, scanning the character list. -/
def hasDotDotAux : List Char → Bool
  | '.' :: '.' :: _ => true
  | _ :: rest => hasDotDotAux rest
  | [] => false

/-- `".." in scan_id` from the security check in `get_results`. -/
def hasDotDot (s : String) : Bool :=
  hasDotDotAux s.toList

/-- `"/" in scan_id` from the security check in `get_results`. -/
def hasSlash (s : String) : Bool :=
  s.toList.contains '/'

/-- Split a character list at `/` separators into path components. -/
def splitSlashAux : List Char → List Char → List String
  | [], acc => [String.mk acc.reverse]
  | '/' :: rest, acc => String.mk acc.reverse :: splitSlashAux rest []
  | c :: rest, acc => splitSlashAux rest (c :: acc)

/-- One step of lexical path resolution: empty and `.` components are
dropped, `..` removes the previous component, anything else is kept. -/
def normStep (acc : List String) (c : String) : List String :=
  if c = "" then acc
  else if c = "." then acc
  else if c = ".." then acc.dropLast
  else acc ++ [c]

/-- Lexical normalization of a `/`-separated path into its component
list, resolving `.` and `..` as `os.path.normpath` would. -/
def normalizePath (p : String) : List String :=
  (splitSlashAux p.toList []).foldl normStep []

/-- `p` stays inside directory `dataDir`: after lexical resolution the
directory components are a prefix of the path components. -/
def staysInside (dataDir p : String) : Bool :=
  List.isPrefixOf (normalizePath dataDir) (normalizePath p)

/-- `f"username_{username}_{os.urandom(4).hex()}"` from `scan_username`. -/
def username_scan_id (username suffix : String) : String :=
  "username_" ++ username ++ "_" ++ suffix

/-- `f"email_{email}_{os.urandom(4).hex()}"` from `scan_email`. -/
def email_scan_id (email suffix : String) : String :=
  "email_" ++ email ++ "_" ++ suffix

/-- `os.path.join(DATA_DIR, f"{scan_id}.json")`.  The generated scan id
always starts with `username_` or `email_`, so it is never absolute and
`os.path.join` concatenates with a single separator. -/
def output_file_path (dataDir scan_id : String) : String :=
  dataDir ++ "/" ++ scan_id ++ ".json"

/-- The `/results/<scan_id>` handler `get_results`.  `store` maps a file
name (relative to `DATA_DIR`) to the parsed JSON record when the file
exists.  Mirrors src/api.py lines 160-188: reject ids containing `..` or
`/`; report `processing` with 202 when no file exists; otherwise return
the record under a top-level `completed` status with 200. -/
def get_results (store : String → Option JVal) (scan_id : String) : HttpResponse :=
  if hasDotDot scan_id || hasSlash scan_id then
    ⟨400, JVal.obj [("error", JVal.str "Invalid scan ID")]⟩
  else
    match store (scan_id ++ ".json") with
    | none =>
        ⟨202, JVal.obj [("status", JVal.str "processing"),
                        ("message", JVal.str "Scan still in progress"),
                        ("scan_id", JVal.str scan_id)]⟩
    | some results =>
        ⟨200, JVal.obj [("status", JVal.str "completed"),
                        ("scan_id", JVal.str scan_id),
                        ("results", results)]⟩

/-- Effect of a submission handler: the HTTP response, whether a
background thread was started, and the scan id handed to that thread. -/
structure SubmitEffect where
  response : HttpResponse
  taskStarted : Bool
  scanId : Option String

/-- The 400 body `{"error": "Username is required"}`. -/
def usernameRequired : SubmitEffect :=
  ⟨⟨400, JVal.obj [("error", JVal.str "Username is required")]⟩, false, none⟩

/-- The 400 body `{"error": "Email is required"}`. -/
def emailRequired : SubmitEffect :=
  ⟨⟨400, JVal.obj [("error", JVal.str "Email is required")]⟩, false, none⟩

/-- The 500 body returned when the blackbird binary is absent. -/
def blackbirdNotBuilt : SubmitEffect :=
  ⟨⟨500, JVal.obj [("error", JVal.str "Blackbird not built"),
                   ("message", JVal.str "Blackbird binary needs to be compiled first"),
                   ("solution", JVal.str "Run \x27go build -o blackbird\x27 in the repository root")]⟩,
   false, none⟩

/-- The `POST /scan/username` handler (src/api.py lines 80-118).  `data`
is the parsed JSON body: `none` for a null body, and the key-value pairs
otherwise, so `not data` is `data = none` or the empty dict.  `suffix` is
the hex rendering of `os.urandom(4)`; `blackbirdExists` is
`os.path.exists(BLACKBIRD_PATH)`.  Note the handler only tests membership
of the `username` key, never that its value is non-empty. -/
def scan_username (data : Option (List (String × String))) (suffix : String)
    (blackbirdExists : Bool) : SubmitEffect :=
  match data with
  | none => usernameRequired
  | some d =>
    if d = [] then usernameRequired
    else
      match List.lookup "username" d with
      | none => usernameRequired
      | some username =>
        let scan_id := username_scan_id username suffix
        if blackbirdExists then
          ⟨⟨202, JVal.obj [("message", JVal.str "Scan started"),
                           ("scan_id", JVal.str scan_id),
                           ("username", JVal.str username),
                           ("results_url", JVal.str ("/results/" ++ scan_id)),
                           ("note", JVal.str "Results will be available in 1-5 minutes")]⟩,
           true, some scan_id⟩
        else blackbirdNotBuilt

/-- The `POST /scan/email` handler (src/api.py lines 120-158), symmetric
to `scan_username` with the `email` key and the `email_` id prefix. -/
def scan_email (data : Option (List (String × String))) (suffix : String)
    (blackbirdExists : Bool) : SubmitEffect :=
  match data with
  | none => emailRequired
  | some d =>
    if d = [] then emailRequired
    else
      match List.lookup "email" d with
      | none => emailRequired
      | some email =>
        let scan_id := email_scan_id email suffix
        if blackbirdExists then
          ⟨⟨202, JVal.obj [("message", JVal.str "Scan started"),
                           ("scan_id", JVal.str scan_id),
                           ("email", JVal.str email),
                           ("results_url", JVal.str ("/results/" ++ scan_id)),
                           ("note", JVal.str "Results will be available in 1-5 minutes")]⟩,
           true, some scan_id⟩
        else blackbirdNotBuilt

/-- Effect of one background runner: the argument list handed to
`subprocess.run`, the `timeout=` argument in seconds, and the JSON record
written to the output file. -/
structure RunEffect where
  cmd : List String
  timeoutSeconds : Nat
  record : List (String × JVal)

/-- The background runner `run_blackbird_username_scan` (src/api.py lines
219-267).  `blackbirdPath` is `BLACKBIRD_PATH`, `timestamp` the string
computed from `os.path.getctime` (or "unknown"), and `outcome` the result
of `subprocess.run(cmd, capture_output=True, text=True, timeout=300)`. -/
def run_blackbird_username_scan (blackbirdPath username timestamp : String)
    (outcome : ProcOutcome) : RunEffect :=
  let cmd := [blackbirdPath, "-u", username, "--no-color"]
  let record :=
    match outcome with
    | ProcOutcome.completed rc out err =>
        [("username", JVal.str username),
         ("timestamp", JVal.str timestamp),
         ("command", JVal.str (String.intercalate " " cmd)),
         ("return_code", JVal.num rc),
         ("stdout", JVal.str out),
         ("stderr", JVal.str err),
         ("status", JVal.str (if rc = 0 then "completed" else "failed"))]
    | ProcOutcome.timedOut =>
        [("error", JVal.str "Scan timed out after 5 minutes"),
         ("status", JVal.str "timeout"),
         ("username", JVal.str username)]
    | ProcOutcome.exn msg =>
        [("error", JVal.str msg),
         ("status", JVal.str "failed"),
         ("username", JVal.str username)]
  ⟨cmd, 300, record⟩

/-- The background runner `run_blackbird_email_scan` (src/api.py lines
269-317), symmetric to the username runner with the `-e` flag and the
`email` record key. -/
def run_blackbird_email_scan (blackbirdPath email timestamp : String)
    (outcome : ProcOutcome) : RunEffect :=
  let cmd := [blackbirdPath, "-e", email, "--no-color"]
  let record :=
    match outcome with
    | ProcOutcome.completed rc out err =>
        [("email", JVal.str email),
         ("timestamp", JVal.str timestamp),
         ("command", JVal.str (String.intercalate " " cmd)),
         ("return_code", JVal.num rc),
         ("stdout", JVal.str out),
         ("stderr", JVal.str err),
         ("status", JVal.str (if rc = 0 then "completed" else "failed"))]
    | ProcOutcome.timedOut =>
        [("error", JVal.str "Scan timed out after 5 minutes"),
         ("status", JVal.str "timeout"),
         ("email", JVal.str email)]
    | ProcOutcome.exn msg =>
        [("error", JVal.str msg),
         ("status", JVal.str "failed"),
         ("email", JVal.str email)]
  ⟨cmd, 300, record⟩

/-- The `GET /platforms` handler `get_platforms` (src/api.py lines
190-217).  `outcome` is the result of running the binary with
`--list-platforms` under a 10-second timeout; a raised exception (the
timeout included) falls through to the generic 500 handler. -/
def get_platforms (blackbirdExists : Bool) (outcome : ProcOutcome) : HttpResponse :=
  if blackbirdExists then
    match outcome with
    | ProcOutcome.completed rc out _ =>
        if rc = 0 then
          let platforms := (out.trim).splitOn "\n"
          ⟨200, JVal.obj [("platforms", JVal.arr (platforms.map JVal.str)),
                          ("count", JVal.num (platforms.length : Int))]⟩
        else
          ⟨200, JVal.obj [("platforms", JVal.arr [JVal.str "Unknown - compile blackbird to see list"]),
                          ("count", JVal.num 0)]⟩
    | ProcOutcome.timedOut =>
        ⟨500, JVal.obj [("error", JVal.str "Command timed out after 10 seconds")]⟩
    | ProcOutcome.exn msg =>
        ⟨500, JVal.obj [("error", JVal.str msg)]⟩
  else
    ⟨500, JVal.obj [("error", JVal.str "Blackbird not built"),
                    ("message", JVal.str "Compile blackbird first to see supported platforms")]⟩

/-- The fields of a JSON object, empty for the other constructors. -/
def objFields : JVal → List (String × JVal)
  | JVal.obj fs => fs
  | _ => []

/-- The `platforms` array of a response body, when present. -/
def bodyPlatforms (r : HttpResponse) : Option (List JVal) :=
  match List.lookup "platforms" (objFields r.body) with
  | some (JVal.arr l) => some l
  | _ => none

/-- The `count` field of a response body, when present. -/
def bodyCount (r : HttpResponse) : Option Int :=
  match List.lookup "count" (objFields r.body) with
  | some (JVal.num n) => some n
  | _ => none

/-- A record carries every attribute in `ks`. -/
def hasAttrs (r : List (String × JVal)) (ks : List String) : Bool :=
  ks.all (fun k => (List.lookup k r).isSome)

/-- A record carries none of the attributes in `ks`: every listed key is
absent. -/
def lacksAttrs (r : List (String × JVal)) (ks : List String) : Bool :=
  ks.all (fun k => (List.lookup k r).isNone)

/-- C3: any scan id containing the substring `..` or the path separator
`/` makes `get_results` answer 400 with body `{error: "Invalid scan ID"}`,
whatever the result store holds. -/
theorem get_results_rejects_traversal (store : String → Option JVal) (scan_id : String)
    (h : hasDotDot scan_id = true ∨ hasSlash scan_id = true) :
    get_results store scan_id =
      ⟨400, JVal.obj [("error", JVal.str "Invalid scan ID")]⟩ := by
  rcases h with h | h <;> simp [get_results, h]

/-- Witness for C3: the spec scenario `/results/../../etc/passwd` is
rejected even over a store that would answer for every file. -/
theorem get_results_rejects_traversal_witness :
    get_results (fun _ => some (JVal.obj [])) "../../etc/passwd" =
      ⟨400, JVal.obj [("error", JVal.str "Invalid scan ID")]⟩ :=
  get_results_rejects_traversal _ _ (Or.inl rfl)

/-- C6: a well-formed scan id (no `..`, no separator) whose result file
does not exist gets the 202 `processing` body, never an error. -/
theorem get_results_missing_file_processing (store : String → Option JVal) (scan_id : String)
    (h1 : hasDotDot scan_id = false) (h2 : hasSlash scan_id = false)
    (h3 : store (scan_id ++ ".json") = none) :
    get_results store scan_id =
      ⟨202, JVal.obj [("status", JVal.str "processing"),
                      ("message", JVal.str "Scan still in progress"),
                      ("scan_id", JVal.str scan_id)]⟩ := by
  simp [get_results, h1, h2, h3]

/-- Witness for C6: polling a freshly issued id over an empty store. -/
theorem get_results_missing_file_processing_witness :
    get_results (fun _ => none) "username_alice_abcd1234" =
      ⟨202, JVal.obj [("status", JVal.str "processing"),
                      ("message", JVal.str "Scan still in progress"),
                      ("scan_id", JVal.str "username_alice_abcd1234")]⟩ :=
  get_results_missing_file_processing _ _ rfl rfl rfl

/-- C10: when the result file exists, `get_results` answers 200 with
top-level status `completed` and the stored record nested under
`results`, regardless of the status recorded inside that record. -/
theorem get_results_existing_file_completed (store : String → Option JVal)
    (scan_id : String) (r : JVal)
    (h1 : hasDotDot scan_id = false) (h2 : hasSlash scan_id = false)
    (h3 : store (scan_id ++ ".json") = some r) :
    get_results store scan_id =
      ⟨200, JVal.obj [("status", JVal.str "completed"),
                      ("scan_id", JVal.str scan_id),
                      ("results", r)]⟩ := by
  simp [get_results, h1, h2, h3]

/-- Witness for C10: a stored record whose own status is `failed` is
still served under a top-level `completed` with code 200. -/
theorem get_results_existing_file_completed_witness :
    get_results (fun _ => some (JVal.obj [("status", JVal.str "failed")]))
        "username_alice_abcd1234" =
      ⟨200, JVal.obj [("status", JVal.str "completed"),
                      ("scan_id", JVal.str "username_alice_abcd1234"),
                      ("results", JVal.obj [("status", JVal.str "failed")])]⟩ :=
  get_results_existing_file_completed _ _ _ rfl rfl rfl

/-- C1: the generated scan id is built by raw interpolation of the
user-supplied subject, so a subject containing `/` and `..` drives the
joined output file path outside the data directory: with subject
`a/../../secrets` the written file lexically resolves outside
`/srv/app/data`.  The submission handler also accepts this subject and
starts the background task that performs the write. -/
theorem scan_username_id_escapes_data_dir :
    staysInside "/srv/app/data"
        (output_file_path "/srv/app/data" (username_scan_id "a/../../secrets" "deadbeef")) = false
  ∧ (scan_username (some [("username", "a/../../secrets")]) "deadbeef" true).taskStarted = true
  ∧ (scan_username (some [("username", "a/../../secrets")]) "deadbeef" true).scanId =
      some "username_a/../../secrets_deadbeef" := by
  refine ⟨by decide, rfl, rfl⟩

/-- Counterexample to C2: a request whose `username` field is present but
holds the empty string is not rejected: the handler answers 202 and
starts a background task. -/
theorem scan_username_empty_subject_accepted :
    (scan_username (some [("username", "")]) "abcd1234" true).response.statusCode = 202
  ∧ (scan_username (some [("username", "")]) "abcd1234" true).taskStarted = true :=
  ⟨rfl, rfl⟩

/-- C2 (amended): a request whose body is null or the empty object, or
whose subject key is absent, gets an immediate 400 and no background
task; a present-but-empty subject string is not rejected. -/
theorem scan_submit_absent_subject_rejected :
    (∀ data sfx bb,
        (data = none ∨ data = some [] ∨ ∃ d, data = some d ∧ List.lookup "username" d = none) →
        (scan_username data sfx bb).response.statusCode = 400
      ∧ (scan_username data sfx bb).taskStarted = false)
  ∧ (∀ data sfx bb,
        (data = none ∨ data = some [] ∨ ∃ d, data = some d ∧ List.lookup "email" d = none) →
        (scan_email data sfx bb).response.statusCode = 400
      ∧ (scan_email data sfx bb).taskStarted = false) := by
  constructor <;>
  · intro data sfx bb h
    rcases h with rfl | rfl | ⟨d, rfl, hk⟩
    · exact ⟨rfl, rfl⟩
    · exact ⟨rfl, rfl⟩
    · by_cases hd : d = []
      · subst hd; exact ⟨rfl, rfl⟩
      · simp [scan_username, scan_email, hd, hk, usernameRequired, emailRequired]

/-- Witness for C2 (amended): a null body and a body carrying only a
`username` key are both rejected with 400 and no task. -/
theorem scan_submit_absent_subject_rejected_witness :
    ((scan_username none "abcd1234" true).response.statusCode = 400
  ∧ (scan_username none "abcd1234" true).taskStarted = false)
  ∧ (scan_email (some [("username", "bob")]) "abcd1234" true).response.statusCode = 400 :=
  ⟨scan_submit_absent_subject_rejected.1 none "abcd1234" true (Or.inl rfl),
   (scan_submit_absent_subject_rejected.2 (some [("username", "bob")]) "abcd1234" true
      (Or.inr (Or.inr ⟨_, rfl, rfl⟩))).1⟩

/-- C4: on normal completion the written record's status is `completed`
exactly when the return code is zero, and `failed` exactly otherwise,
for both runners. -/
theorem run_scan_status_iff_exit_zero (p u e ts out err : String) (rc : Int) :
    (List.lookup "status" (run_blackbird_username_scan p u ts
          (ProcOutcome.completed rc out err)).record = some (JVal.str "completed") ↔ rc = 0)
  ∧ (List.lookup "status" (run_blackbird_username_scan p u ts
          (ProcOutcome.completed rc out err)).record = some (JVal.str "failed") ↔ ¬ rc = 0)
  ∧ (List.lookup "status" (run_blackbird_email_scan p e ts
          (ProcOutcome.completed rc out err)).record = some (JVal.str "completed") ↔ rc = 0)
  ∧ (List.lookup "status" (run_blackbird_email_scan p e ts
          (ProcOutcome.completed rc out err)).record = some (JVal.str "failed") ↔ ¬ rc = 0) := by
  by_cases h : rc = 0 <;>
    simp [run_blackbird_username_scan, run_blackbird_email_scan, h, List.lookup]

/-- Witness for C4: exit code 0 yields status `completed`. -/
theorem run_scan_status_iff_exit_zero_witness :
    List.lookup "status" (run_blackbird_username_scan "blackbird" "alice" "unknown"
        (ProcOutcome.completed 0 "out" "err")).record = some (JVal.str "completed") :=
  (run_scan_status_iff_exit_zero "blackbird" "alice" "a@b.c" "unknown" "out" "err" 0).1.mpr rfl

/-- C5: a job hitting the 300-second timeout writes a record with status
`timeout` carrying no stdout and no stderr attribute, for both runners. -/
theorem run_scan_timeout_no_output (p u e ts : String) :
    (run_blackbird_username_scan p u ts ProcOutcome.timedOut).timeoutSeconds = 300
  ∧ List.lookup "status" (run_blackbird_username_scan p u ts ProcOutcome.timedOut).record
        = some (JVal.str "timeout")
  ∧ List.lookup "stdout" (run_blackbird_username_scan p u ts ProcOutcome.timedOut).record = none
  ∧ List.lookup "stderr" (run_blackbird_username_scan p u ts ProcOutcome.timedOut).record = none
  ∧ (run_blackbird_email_scan p e ts ProcOutcome.timedOut).timeoutSeconds = 300
  ∧ List.lookup "status" (run_blackbird_email_scan p e ts ProcOutcome.timedOut).record
        = some (JVal.str "timeout")
  ∧ List.lookup "stdout" (run_blackbird_email_scan p e ts ProcOutcome.timedOut).record = none
  ∧ List.lookup "stderr" (run_blackbird_email_scan p e ts ProcOutcome.timedOut).record = none :=
  ⟨rfl, rfl, rfl, rfl, rfl, rfl, rfl, rfl⟩

/-- C7: each runner invokes the binary with exactly the kind-specific
flag, the subject, and `--no-color`, under a 300-second timeout. -/
theorem run_scan_invocation (p u e ts : String) (o : ProcOutcome) :
    (run_blackbird_username_scan p u ts o).cmd = [p, "-u", u, "--no-color"]
  ∧ (run_blackbird_username_scan p u ts o).timeoutSeconds = 300
  ∧ (run_blackbird_email_scan p e ts o).cmd = [p, "-e", e, "--no-color"]
  ∧ (run_blackbird_email_scan p e ts o).timeoutSeconds = 300 :=
  ⟨rfl, rfl, rfl, rfl⟩

/-- Counterexample to C8: the record written on timeout lacks each of
the command, exit-code, stdout and stderr attributes required by the
claim. -/
theorem run_scan_timeout_record_missing_attrs :
    List.lookup "command" (run_blackbird_username_scan "blackbird" "alice" "unknown"
        ProcOutcome.timedOut).record = none
  ∧ List.lookup "return_code" (run_blackbird_username_scan "blackbird" "alice" "unknown"
        ProcOutcome.timedOut).record = none
  ∧ List.lookup "stdout" (run_blackbird_username_scan "blackbird" "alice" "unknown"
        ProcOutcome.timedOut).record = none
  ∧ List.lookup "stderr" (run_blackbird_username_scan "blackbird" "alice" "unknown"
        ProcOutcome.timedOut).record = none
  ∧ List.lookup "status" (run_blackbird_username_scan "blackbird" "alice" "unknown"
        ProcOutcome.timedOut).record = some (JVal.str "timeout") :=
  ⟨rfl, rfl, rfl, rfl, rfl⟩

/-- C8 (amended): only the record written on normal completion carries
subject, timestamp, command, return code, stdout, stderr and a status in
{completed, failed}; the records written on timeout and on execution
failure are exactly `[error, status, subject]` — carrying only the
subject, an error description and their status (`timeout`, resp.
`failed`), with each of the command, exit-code, stdout and stderr
attributes absent — for both runners. -/
theorem run_scan_record_attributes (p u e ts out err msg : String) (rc : Int) :
    (hasAttrs (run_blackbird_username_scan p u ts (ProcOutcome.completed rc out err)).record
        ["username", "timestamp", "command", "return_code", "stdout", "stderr", "status"] = true
      ∧ (List.lookup "status" (run_blackbird_username_scan p u ts
            (ProcOutcome.completed rc out err)).record = some (JVal.str "completed")
         ∨ List.lookup "status" (run_blackbird_username_scan p u ts
            (ProcOutcome.completed rc out err)).record = some (JVal.str "failed")))
  ∧ hasAttrs (run_blackbird_email_scan p e ts (ProcOutcome.completed rc out err)).record
        ["email", "timestamp", "command", "return_code", "stdout", "stderr", "status"] = true
  ∧ ((run_blackbird_username_scan p u ts ProcOutcome.timedOut).record =
        [("error", JVal.str "Scan timed out after 5 minutes"),
         ("status", JVal.str "timeout"),
         ("username", JVal.str u)]
      ∧ lacksAttrs (run_blackbird_username_scan p u ts ProcOutcome.timedOut).record
        ["command", "return_code", "stdout", "stderr"] = true)
  ∧ ((run_blackbird_username_scan p u ts (ProcOutcome.exn msg)).record =
        [("error", JVal.str msg),
         ("status", JVal.str "failed"),
         ("username", JVal.str u)]
      ∧ lacksAttrs (run_blackbird_username_scan p u ts (ProcOutcome.exn msg)).record
        ["command", "return_code", "stdout", "stderr"] = true)
  ∧ ((run_blackbird_email_scan p e ts ProcOutcome.timedOut).record =
        [("error", JVal.str "Scan timed out after 5 minutes"),
         ("status", JVal.str "timeout"),
         ("email", JVal.str e)]
      ∧ lacksAttrs (run_blackbird_email_scan p e ts ProcOutcome.timedOut).record
        ["command", "return_code", "stdout", "stderr"] = true)
  ∧ ((run_blackbird_email_scan p e ts (ProcOutcome.exn msg)).record =
        [("error", JVal.str msg),
         ("status", JVal.str "failed"),
         ("email", JVal.str e)]
      ∧ lacksAttrs (run_blackbird_email_scan p e ts (ProcOutcome.exn msg)).record
        ["command", "return_code", "stdout", "stderr"] = true) := by
  refine ⟨⟨rfl, ?_⟩, rfl, ⟨rfl, rfl⟩, ⟨rfl, rfl⟩, ⟨rfl, rfl⟩, ⟨rfl, rfl⟩⟩
  by_cases h : rc = 0
  · exact Or.inl (by simp [run_blackbird_username_scan, h, List.lookup])
  · exact Or.inr (by simp [run_blackbird_username_scan, h, List.lookup])

/-- Counterexample to C9: when the binary exits nonzero the fallback
platforms list is not empty: it is the one-element placeholder list,
while `count` is 0. -/
theorem get_platforms_fallback_not_empty :
    bodyPlatforms (get_platforms true (ProcOutcome.completed 1 "" "")) =
        some [JVal.str "Unknown - compile blackbird to see list"]
  ∧ (bodyPlatforms (get_platforms true (ProcOutcome.completed 1 "" ""))).map List.length = some 1
  ∧ bodyCount (get_platforms true (ProcOutcome.completed 1 "" "")) = some 0 :=
  ⟨rfl, rfl, rfl⟩

/-- C9 (amended): on a zero exit the platforms are the newline-split of
the trimmed stdout relayed verbatim, with `count` equal to the length of
the returned list; on a nonzero exit the response holds a one-element
placeholder list and `count` 0. -/
theorem get_platforms_count_and_fallback (out err : String) (rc : Int) (h : ¬ rc = 0) :
    (bodyPlatforms (get_platforms true (ProcOutcome.completed 0 out err)) =
        some (((out.trim).splitOn "\n").map JVal.str)
      ∧ bodyCount (get_platforms true (ProcOutcome.completed 0 out err)) =
        some (((((out.trim).splitOn "\n").map JVal.str).length : Nat) : Int))
  ∧ (bodyPlatforms (get_platforms true (ProcOutcome.completed rc out err)) =
        some [JVal.str "Unknown - compile blackbird to see list"]
      ∧ bodyCount (get_platforms true (ProcOutcome.completed rc out err)) = some 0) := by
  refine ⟨⟨rfl, ?_⟩, by simp [get_platforms, bodyPlatforms, bodyCount, objFields, h, List.lookup]⟩
  simp [get_platforms, bodyCount, objFields, List.lookup]

/-- Witness for C9 (amended): with exit code 1 the fallback body holds
the placeholder list. -/
theorem get_platforms_count_and_fallback_witness :
    bodyPlatforms (get_platforms true (ProcOutcome.completed 1 "GitHub\nGitLab" "")) =
      some [JVal.str "Unknown - compile blackbird to see list"] :=
  ((get_platforms_count_and_fallback "GitHub\nGitLab" "" 1 (by decide)).2).1

end Api
